import Mathlib

/-!
Verification of the zestys on-device memory diagnostic engine

A shallow embedding, in Lean 4, of the coverage scheduler, region-window
planner, pattern generators and crash-persistent fault-diagnosis state of
the zestys memory test firmware (sources under `Src/`), together with
theorems settling the specification's claims about them.

Machine integers are modelled as `Nat` with explicit reduction modulo
`2 ^ 32` wherever the C `uint32_t` arithmetic can wrap.  C operations
whose evaluation would be undefined behaviour (modulo by a zero divisor)
are modelled by returning `none`.
-/

namespace Zestys

/-- The modulus of 32-bit unsigned arithmetic (`uint32_t`). -/
def U32 : Nat := 2 ^ 32

/-- Constant `FLASH_SIZE` from `memory_test.h` (512KB). -/
def FLASH_SIZE : Nat := 0x80000

/-- Constant `SRAM1_SIZE` from `memory_test.h` (96KB). -/
def SRAM1_SIZE : Nat := 0x18000

/-- Constant `SRAM2_SIZE` from `memory_test.h` (32KB). -/
def SRAM2_SIZE : Nat := 0x8000

/-- Constant `CCM_SRAM_SIZE` from `memory_test.h` (32KB). -/
def CCM_SRAM_SIZE : Nat := 0x8000

/-- Constant `SRAM2_START_ADDR` from `memory_test.h`. -/
def SRAM2_START_ADDR : Nat := 0x20018000

/-- Unsigned 32-bit subtraction `a - b` (wraps modulo `2 ^ 32`). -/
def sub32 (a b : Nat) : Nat := (a + U32 - b % U32) % U32

/-!
PatternGenerator (`address_tests.c`)
-/

/-- Function `GenerateAddressPattern` from `address_tests.c`:
`address ^ (testCycleCounter * 0x1234567B) ^ 0xF00F0FF0`, all in
`uint32_t` arithmetic.  The C function reads the cycle counter from a
global; here it is the second argument. -/
def generateAddressPattern (address cycleCounter : Nat) : Nat :=
  (address % U32) ^^^ ((cycleCounter * 0x1234567B) % U32) ^^^ 0xF00F0FF0

/-- First butterfly pattern from `RunEnhancedButterflyTest`
(`address_tests.c` line 149):
`0xAAAAAAAA ^ (i * 0x11111111) ^ testCycleCounter`. -/
def butterflyPattern1 (i cycleCounter : Nat) : Nat :=
  0xAAAAAAAA ^^^ ((i * 0x11111111) % U32) ^^^ (cycleCounter % U32)

/-- Second butterfly pattern from `RunEnhancedButterflyTest`
(`address_tests.c` line 150):
`0x55555555 ^ (i * 0x11111111) ^ testCycleCounter`. -/
def butterflyPattern2 (i cycleCounter : Nat) : Nat :=
  0x55555555 ^^^ ((i * 0x11111111) % U32) ^^^ (cycleCounter % U32)

/-- XOR regrouping helper: `((x ^ y) ^ z) ^ w = (x ^ w) ^ (y ^ z)`. -/
theorem xor_regroup (x y z w : Nat) :
    ((x ^^^ y) ^^^ z) ^^^ w = (x ^^^ w) ^^^ (y ^^^ z) := by
  calc ((x ^^^ y) ^^^ z) ^^^ w
      = (x ^^^ (y ^^^ z)) ^^^ w := by rw [Nat.xor_assoc x y z]
    _ = x ^^^ ((y ^^^ z) ^^^ w) := by rw [Nat.xor_assoc]
    _ = x ^^^ (w ^^^ (y ^^^ z)) := by rw [Nat.xor_comm (y ^^^ z) w]
    _ = (x ^^^ w) ^^^ (y ^^^ z) := by rw [Nat.xor_assoc]

/-- Claim C8: for addresses `a1`, `a2` differing in exactly one bit
(their XOR is a power of two) and any fixed cycle counter `c`, the
address-pattern generator yields different values. -/
theorem generateAddressPattern_distinct (a1 a2 c k : Nat)
    (h1 : a1 < U32) (h2 : a2 < U32) (hbit : a1 ^^^ a2 = 2 ^ k) :
    generateAddressPattern a1 c ≠ generateAddressPattern a2 c := by
  intro heq
  unfold generateAddressPattern at heq
  rw [Nat.mod_eq_of_lt h1, Nat.mod_eq_of_lt h2] at heq
  have h3 := congrArg (fun x => x ^^^ 0xF00F0FF0) heq
  simp only [Nat.xor_cancel_right] at h3
  have h4 := congrArg (fun x => x ^^^ ((c * 0x1234567B) % U32)) h3
  simp only [Nat.xor_cancel_right] at h4
  rw [h4, Nat.xor_self] at hbit
  have h5 : 0 < 2 ^ k := pow_pos (by omega) k
  omega

/-- Witness for C8: two SRAM2 addresses differing only in bit 2,
at cycle 7. -/
theorem generateAddressPattern_distinct_witness :
    generateAddressPattern 0x20018400 7 ≠ generateAddressPattern 0x20018404 7 :=
  generateAddressPattern_distinct 0x20018400 0x20018404 7 2
    (by decide) (by decide) (by decide)

/-- Claim C9: the two values the butterfly test writes to a pair are
exact 32-bit bitwise complements: the second equals the first XORed
with `0xFFFFFFFF`, and the first is a 32-bit value. -/
theorem butterflyPattern_complement (i c : Nat) :
    butterflyPattern2 i c = butterflyPattern1 i c ^^^ 0xFFFFFFFF ∧
    butterflyPattern1 i c < U32 := by
  constructor
  · unfold butterflyPattern1 butterflyPattern2
    rw [xor_regroup]
    have hAB : (0xAAAAAAAA : Nat) ^^^ 0xFFFFFFFF = 0x55555555 := by decide
    rw [hAB, Nat.xor_assoc]
  · unfold butterflyPattern1
    have hm : (i * 0x11111111) % U32 < U32 := Nat.mod_lt _ (by decide)
    have hc : c % U32 < U32 := Nat.mod_lt _ (by decide)
    have ha : (0xAAAAAAAA : Nat) < U32 := by decide
    exact Nat.xor_lt_two_pow (Nat.xor_lt_two_pow ha hm) hc

/-!
RegionWindowPlanner (`memory_test_configuration.c`)
-/

/-- The `MemoryTestConfig` struct from `memory_test.h` /
`memory_test_configuration.c`.  The two `uint8_t` enable flags are
modelled as `Bool` (the C code only tests them for zero / non-zero). -/
structure MemoryTestConfig where
  flashTestSize : Nat
  sram1TestSize : Nat
  sram2TestSize : Nat
  ccmTestSize : Nat
  flashTestOffset : Nat
  sram1TestOffset : Nat
  sram2TestOffset : Nat
  ccmTestOffset : Nat
  addressTestStride : Nat
  numButterflyPairs : Nat
  reportIntervalMs : Nat
  advancedTestInterval : Nat
  rotateStartingOffsets : Bool
  rotateTestSizes : Bool
deriving DecidableEq

/-- Function `InitializeDefaultConfig` from `memory_test_configuration.c`. -/
def initializeDefaultConfig : MemoryTestConfig where
  flashTestSize := 0x8000
  sram1TestSize := 0x4000
  sram2TestSize := 0x2000
  ccmTestSize := 0x2000
  flashTestOffset := 0x20000
  sram1TestOffset := 0x2000
  sram2TestOffset := 0x400
  ccmTestOffset := 0x400
  addressTestStride := 256
  numButterflyPairs := 16
  reportIntervalMs := 1000
  advancedTestInterval := 10
  rotateStartingOffsets := true
  rotateTestSizes := true

/-- One bank's offset-rotation step inside `RotateTestParameters`:
`maxOffset = regionSize - testSize - margin` (in `uint32_t` arithmetic),
then `offset = (offset + stride) % maxOffset`, then the snap
`if (offset < snapLow) offset = snapLow`.  The Flash bank has no snap
statement, which is the `snapLow = 0` instance.  A zero `maxOffset`
makes the C modulo undefined behaviour; that case is `none`. -/
def rotateBankOffset (regionSize testSize margin stride snapLow off : Nat) :
    Option Nat :=
  if sub32 (sub32 regionSize testSize) margin = 0 then none
  else some
    (if ((off + stride) % U32) % (sub32 (sub32 regionSize testSize) margin)
        < snapLow
     then snapLow
     else ((off + stride) % U32) % (sub32 (sub32 regionSize testSize) margin))

/-- The offset-rotation half of `RotateTestParameters`
(`memory_test_configuration.c` lines 136-157): if
`rotateStartingOffsets` is set, advance all four banks' offsets, in the
order Flash, SRAM1, SRAM2, CCM SRAM, each with its stride, margin and
snap value from the source. -/
def offsetRotationPhase (cfg : MemoryTestConfig) : Option MemoryTestConfig :=
  if cfg.rotateStartingOffsets then
    (rotateBankOffset FLASH_SIZE cfg.flashTestSize 0x1000 0x10000 0
        cfg.flashTestOffset).bind fun newFlash =>
      (rotateBankOffset SRAM1_SIZE cfg.sram1TestSize 0x1000 0x4000 0x1000
          cfg.sram1TestOffset).bind fun newSram1 =>
        (rotateBankOffset SRAM2_SIZE cfg.sram2TestSize 0x400 0x1000 0x400
            cfg.sram2TestOffset).bind fun newSram2 =>
          (rotateBankOffset CCM_SRAM_SIZE cfg.ccmTestSize 0x400 0x1000 0x400
              cfg.ccmTestOffset).bind fun newCcm =>
            some { cfg with
                    flashTestOffset := newFlash
                    sram1TestOffset := newSram1
                    sram2TestOffset := newSram2
                    ccmTestOffset := newCcm }
  else some cfg

/-- The size-rotation half of `RotateTestParameters`
(`memory_test_configuration.c` lines 159-184): every 5 cycles, if
`rotateTestSizes` is set, select the small / medium / large size tier
by `(cycleCounter / 5) % 3`. -/
def sizeRotationPhase (cycleCounter : Nat) (cfg : MemoryTestConfig) :
    MemoryTestConfig :=
  if cfg.rotateTestSizes && (cycleCounter % 5 == 0) then
    match (cycleCounter / 5) % 3 with
    | 0 => { cfg with
              flashTestSize := 0x8000
              sram1TestSize := 0x4000
              sram2TestSize := 0x2000
              ccmTestSize := 0x2000 }
    | 1 => { cfg with
              flashTestSize := 0x10000
              sram1TestSize := 0x8000
              sram2TestSize := 0x4000
              ccmTestSize := 0x4000 }
    | _ => { cfg with
              flashTestSize := 0x20000
              sram1TestSize := 0x10000
              sram2TestSize := 0x6000
              ccmTestSize := 0x6000 }
  else cfg

/-- Function `RotateTestParameters` from `memory_test_configuration.c`: the
offset rotation runs first (lines 136-157), the size-tier rotation
after it (lines 159-184). -/
def rotateTestParameters (cfg : MemoryTestConfig) (cycleCounter : Nat) :
    Option MemoryTestConfig :=
  (offsetRotationPhase cfg).map (sizeRotationPhase cycleCounter)

/-- Modelled from the spec (section 4.2, step 3), for comparison with
`rotateTestParameters`: the spec asks for the size tier to be selected
and the window recomputed BEFORE the offset-advance logic of the same
rotation is applied.  This definition follows the spec's words, not the
source. -/
def specSizeFirstRotate (cfg : MemoryTestConfig) (cycleCounter : Nat) :
    Option MemoryTestConfig :=
  offsetRotationPhase (sizeRotationPhase cycleCounter cfg)

/-- The sequence of configurations produced by `MainTestCycle`
(`main.c` lines 107-114): the cycle counter is incremented first, so
`RotateTestParameters` is called with cycle values 1, 2, 3, ...;
`rotationSequence n` is the configuration after the first `n` cycles,
starting from the defaults. -/
def rotationSequence : Nat → Option MemoryTestConfig
  | 0 => some initializeDefaultConfig
  | n + 1 => (rotationSequence n).bind fun cfg =>
      rotateTestParameters cfg (n + 1)

/-- The per-bank window invariant claimed by the spec:
`offset + size + safetyMargin <= bank.totalSize` for each of the four
banks, with the margins the source uses (4KB for Flash and SRAM1, 1KB
for SRAM2 and CCM SRAM). -/
def windowInvariant (cfg : MemoryTestConfig) : Prop :=
  cfg.flashTestOffset + cfg.flashTestSize + 0x1000 ≤ FLASH_SIZE ∧
  cfg.sram1TestOffset + cfg.sram1TestSize + 0x1000 ≤ SRAM1_SIZE ∧
  cfg.sram2TestOffset + cfg.sram2TestSize + 0x400 ≤ SRAM2_SIZE ∧
  cfg.ccmTestOffset + cfg.ccmTestSize + 0x400 ≤ CCM_SRAM_SIZE

instance (cfg : MemoryTestConfig) : Decidable (windowInvariant cfg) := by
  unfold windowInvariant
  exact inferInstance

/-- Lemma: `sub32` agrees with plain subtraction when no borrow occurs. -/
theorem sub32_eq_sub (a b : Nat) (hb : b ≤ a) (ha : a < U32) :
    sub32 a b = a - b := by
  have h32 : U32 = 4294967296 := by norm_num [U32]
  unfold sub32
  rw [h32] at ha ⊢
  omega

/-- Any offset produced by a bank's offset-rotation step keeps
`offset + size + margin` within the bank, provided the snap value
itself leaves room (`snapLow + size + margin <= regionSize`). -/
theorem rotateBankOffset_le (regionSize testSize margin stride snapLow off o : Nat)
    (hreg : regionSize < U32)
    (hroom : snapLow + testSize + margin ≤ regionSize)
    (h : rotateBankOffset regionSize testSize margin stride snapLow off = some o) :
    o + testSize + margin ≤ regionSize := by
  unfold rotateBankOffset at h
  have h1 : sub32 regionSize testSize = regionSize - testSize :=
    sub32_eq_sub _ _ (by omega) hreg
  have h2 : sub32 (regionSize - testSize) margin = regionSize - testSize - margin :=
    sub32_eq_sub _ _ (by omega) (by omega)
  rw [h1, h2] at h
  by_cases hz : regionSize - testSize - margin = 0
  · rw [if_pos hz] at h
    exact absurd h (by simp)
  · rw [if_neg hz] at h
    have ho := Option.some.inj h
    have hadv : ((off + stride) % U32) % (regionSize - testSize - margin)
        < regionSize - testSize - margin := Nat.mod_lt _ (by omega)
    by_cases hlt : ((off + stride) % U32) % (regionSize - testSize - margin) < snapLow
    · rw [if_pos hlt] at ho
      omega
    · rw [if_neg hlt] at ho
      omega

/-- When the 5-cycle size rotation is not due (flag off, or the cycle
counter is not a multiple of 5), the size-rotation phase is the
identity. -/
theorem sizeRotationPhase_not_due (c : Nat) (cfg : MemoryTestConfig)
    (h : cfg.rotateTestSizes = false ∨ c % 5 ≠ 0) :
    sizeRotationPhase c cfg = cfg := by
  unfold sizeRotationPhase
  rcases h with h | h
  · rw [h]
    simp
  · have hb : (c % 5 == 0) = false := by simpa using h
    rw [hb]
    simp

/-- The size-rotation phase never touches the four offset fields. -/
theorem sizeRotationPhase_preserves_offsets (c : Nat) (cfg : MemoryTestConfig) :
    (sizeRotationPhase c cfg).flashTestOffset = cfg.flashTestOffset ∧
    (sizeRotationPhase c cfg).sram1TestOffset = cfg.sram1TestOffset ∧
    (sizeRotationPhase c cfg).sram2TestOffset = cfg.sram2TestOffset ∧
    (sizeRotationPhase c cfg).ccmTestOffset = cfg.ccmTestOffset := by
  unfold sizeRotationPhase
  split
  · split <;> exact ⟨rfl, rfl, rfl, rfl⟩
  · exact ⟨rfl, rfl, rfl, rfl⟩

/-- Room hypothesis for the offset-rotation phase: each bank's snap
value plus its current window size plus its margin fits in the bank. -/
def banksHaveRoom (cfg : MemoryTestConfig) : Prop :=
  cfg.flashTestSize + 0x1000 ≤ FLASH_SIZE ∧
  0x1000 + cfg.sram1TestSize + 0x1000 ≤ SRAM1_SIZE ∧
  0x400 + cfg.sram2TestSize + 0x400 ≤ SRAM2_SIZE ∧
  0x400 + cfg.ccmTestSize + 0x400 ≤ CCM_SRAM_SIZE

instance (cfg : MemoryTestConfig) : Decidable (banksHaveRoom cfg) := by
  unfold banksHaveRoom
  exact inferInstance

/-- The offset-rotation phase establishes the window invariant (under
the room hypothesis) and changes nothing but the four offsets. -/
theorem offsetRotationPhase_inv (cfg mid : MemoryTestConfig)
    (hinv : windowInvariant cfg)
    (hroom : banksHaveRoom cfg)
    (hop : offsetRotationPhase cfg = some mid) :
    windowInvariant mid ∧ mid.rotateTestSizes = cfg.rotateTestSizes := by
  obtain ⟨hr1, hr2, hr3, hr4⟩ := hroom
  unfold offsetRotationPhase at hop
  by_cases hflag : cfg.rotateStartingOffsets = true
  · rw [if_pos hflag] at hop
    cases hf : rotateBankOffset FLASH_SIZE cfg.flashTestSize 0x1000 0x10000 0
        cfg.flashTestOffset with
    | none => rw [hf] at hop; simp at hop
    | some nFlash =>
    rw [hf, Option.some_bind] at hop
    cases hs1 : rotateBankOffset SRAM1_SIZE cfg.sram1TestSize 0x1000 0x4000 0x1000
        cfg.sram1TestOffset with
    | none => rw [hs1] at hop; simp at hop
    | some nSram1 =>
    rw [hs1, Option.some_bind] at hop
    cases hs2 : rotateBankOffset SRAM2_SIZE cfg.sram2TestSize 0x400 0x1000 0x400
        cfg.sram2TestOffset with
    | none => rw [hs2] at hop; simp at hop
    | some nSram2 =>
    rw [hs2, Option.some_bind] at hop
    cases hc : rotateBankOffset CCM_SRAM_SIZE cfg.ccmTestSize 0x400 0x1000 0x400
        cfg.ccmTestOffset with
    | none => rw [hc] at hop; simp at hop
    | some nCcm =>
    rw [hc, Option.some_bind] at hop
    have hmid := Option.some.inj hop
    subst hmid
    refine ⟨⟨?_, ?_, ?_, ?_⟩, rfl⟩
    · show nFlash + cfg.flashTestSize + 0x1000 ≤ FLASH_SIZE
      exact rotateBankOffset_le _ _ _ _ _ _ _ (by decide) (by omega) hf
    · show nSram1 + cfg.sram1TestSize + 0x1000 ≤ SRAM1_SIZE
      exact rotateBankOffset_le _ _ _ _ _ _ _ (by decide) (by omega) hs1
    · show nSram2 + cfg.sram2TestSize + 0x400 ≤ SRAM2_SIZE
      exact rotateBankOffset_le _ _ _ _ _ _ _ (by decide) (by omega) hs2
    · show nCcm + cfg.ccmTestSize + 0x400 ≤ CCM_SRAM_SIZE
      exact rotateBankOffset_le _ _ _ _ _ _ _ (by decide) (by omega) hc
  · rw [if_neg hflag] at hop
    have hmid := Option.some.inj hop
    subst hmid
    exact ⟨hinv, rfl⟩

/-- The configuration reached after one `MainTestCycle` rotation from
the defaults (cycle counter 1). -/
def configAfterCycle1 : MemoryTestConfig :=
  { initializeDefaultConfig with
      flashTestOffset := 0x30000
      sram1TestOffset := 0x6000
      sram2TestOffset := 0x1400
      ccmTestOffset := 0x1400 }

/-- The configuration reached after four `MainTestCycle` rotations from
the defaults (cycle counters 1-4). -/
def configAfterCycle4 : MemoryTestConfig :=
  { initializeDefaultConfig with
      flashTestOffset := 0x60000
      sram1TestOffset := 0x12000
      sram2TestOffset := 0x4400
      ccmTestOffset := 0x4400 }

/-- The configuration reached after five `MainTestCycle` rotations from
the defaults (cycle counters 1-5; the fifth call also rotates the size
tier to medium, after the offsets were advanced with the old sizes). -/
def configAfterCycle5 : MemoryTestConfig :=
  { initializeDefaultConfig with
      flashTestSize := 0x10000
      sram1TestSize := 0x8000
      sram2TestSize := 0x4000
      ccmTestSize := 0x4000
      flashTestOffset := 0x70000
      sram1TestOffset := 0x3000
      sram2TestOffset := 0x5400
      ccmTestOffset := 0x5400 }

/-- Claim C1, counterexample: with both rotation flags enabled (the
defaults), the fifth rotation advances the offsets using the old small
sizes and then enlarges the size tier, leaving
`offset + size + margin > bankSize` for Flash, SRAM2 and CCM SRAM;
the claimed invariant does not hold after every rotation. -/
theorem rotation_invariant_cex :
    rotationSequence 5 = some configAfterCycle5 ∧
    ¬ windowInvariant configAfterCycle5 ∧
    configAfterCycle5.sram2TestOffset + configAfterCycle5.sram2TestSize + 0x400
      > SRAM2_SIZE := by
  refine ⟨by decide, by decide, by decide⟩

/-- Claim C1, amended: after any rotation call that does not change the
size tiers (size rotation disabled or the cycle not a multiple of 5),
the invariant `offset + size + margin <= bankSize` holds for all four
banks, provided it held before the call and each bank's snap value plus
window size plus margin fits in the bank.  A call that does rotate the
size tier upward can break the invariant, as the counterexample shows. -/
theorem rotation_preserves_invariant_without_size_change
    (cfg cfg' : MemoryTestConfig) (c : Nat)
    (hinv : windowInvariant cfg)
    (hsize : cfg.rotateTestSizes = false ∨ c % 5 ≠ 0)
    (hroom : banksHaveRoom cfg)
    (h : rotateTestParameters cfg c = some cfg') :
    windowInvariant cfg' := by
  unfold rotateTestParameters at h
  cases hop : offsetRotationPhase cfg with
  | none => rw [hop] at h; simp at h
  | some mid =>
    rw [hop, Option.map_some'] at h
    have hcc := Option.some.inj h
    obtain ⟨hmidinv, hmidflag⟩ := offsetRotationPhase_inv cfg mid hinv hroom hop
    have hid : sizeRotationPhase c mid = mid := by
      apply sizeRotationPhase_not_due
      rcases hsize with hs | hs
      · exact Or.inl (hmidflag.trans hs)
      · exact Or.inr hs
    rw [hid] at hcc
    rw [← hcc]
    exact hmidinv

/-- Witness for the amended C1: the first rotation from the default
configuration satisfies all hypotheses and lands in a configuration
satisfying the invariant. -/
theorem rotation_preserves_invariant_witness :
    windowInvariant configAfterCycle1 :=
  rotation_preserves_invariant_without_size_change
    initializeDefaultConfig configAfterCycle1 1
    (by decide) (Or.inr (by decide)) (by decide) (by decide)

/-- A configuration in which SRAM2's window size plus margin equals the
bank size, so the usable offset range is zero. -/
def inconsistentConfig : MemoryTestConfig :=
  { initializeDefaultConfig with sram2TestSize := 0x7C00 }

/-- Claim C5 (code bug): `RotateTestParameters` does not clamp the
window size when size plus margin reaches the bank size.  With SRAM2's
window at 0x7C00 bytes, `maxSram2Offset = 0x8000 - 0x7C00 - 0x400 = 0`
and the C code evaluates `(offset + 0x1000) % 0` — undefined behaviour,
modelled here as `none`.  No clamping path exists in the source. -/
theorem rotate_zero_range_is_undefined :
    rotateTestParameters inconsistentConfig 1 = none := by decide

/-- Claim C6, counterexample: at cycle 5 from the state after four
rotations, the source's rotation (offsets first, then size tier) gives
a different result from the spec's order (size tier first, then
offsets): the source leaves SRAM2's offset at 0x5400, computed with the
old 0x2000 size, while the spec order would give 0x1800. -/
theorem rotate_order_cex :
    rotateTestParameters configAfterCycle4 5 ≠ specSizeFirstRotate configAfterCycle4 5 := by
  decide

/-- Claim C6, amended: in every rotation call — whether or not size
rotation is due — the offset advance is applied first, using the window
size from before the call; the size-tier selection happens afterwards
and never touches the offsets, so the newly selected size only affects
later rotations. -/
theorem rotate_offsets_use_old_size (cfg mid : MemoryTestConfig) (c : Nat)
    (hop : offsetRotationPhase cfg = some mid) :
    rotateTestParameters cfg c = some (sizeRotationPhase c mid) ∧
    (sizeRotationPhase c mid).flashTestOffset = mid.flashTestOffset ∧
    (sizeRotationPhase c mid).sram1TestOffset = mid.sram1TestOffset ∧
    (sizeRotationPhase c mid).sram2TestOffset = mid.sram2TestOffset ∧
    (sizeRotationPhase c mid).ccmTestOffset = mid.ccmTestOffset := by
  refine ⟨?_, sizeRotationPhase_preserves_offsets c mid⟩
  unfold rotateTestParameters
  rw [hop, Option.map_some']

/-- Witness for the amended C6, at the default configuration and
cycle 5 (size rotation due). -/
theorem rotate_offsets_use_old_size_witness :
    rotateTestParameters initializeDefaultConfig 5 =
      some (sizeRotationPhase 5 configAfterCycle1) ∧
    (sizeRotationPhase 5 configAfterCycle1).flashTestOffset =
      configAfterCycle1.flashTestOffset ∧
    (sizeRotationPhase 5 configAfterCycle1).sram1TestOffset =
      configAfterCycle1.sram1TestOffset ∧
    (sizeRotationPhase 5 configAfterCycle1).sram2TestOffset =
      configAfterCycle1.sram2TestOffset ∧
    (sizeRotationPhase 5 configAfterCycle1).ccmTestOffset =
      configAfterCycle1.ccmTestOffset :=
  rotate_offsets_use_old_size initializeDefaultConfig configAfterCycle1 5 (by decide)

/-- SRAM2's offset under repeated rotations at fixed window size
0x2000: the scenario of claim C7 (bank 0x8000, margin 0x400, stride
0x1000, starting offset 0x400), iterating the bank's offset-rotation
step. -/
def sram2OffsetSeq : Nat → Option Nat
  | 0 => some 0x400
  | n + 1 => (sram2OffsetSeq n).bind
      (rotateBankOffset SRAM2_SIZE 0x2000 0x400 0x1000 0x400)

/-- Claim C7: from offset 0x400, one rotation of the SRAM2 window
(size 0x2000, margin 0x400, stride 0x1000) gives offset 0x1400, and
after any positive number of rotations the offset never exceeds
`0x8000 - 0x2000 - 0x400 = 0x5C00`. -/
theorem sram2_rotation_bounded (n o : Nat)
    (h : sram2OffsetSeq (n + 1) = some o) :
    o ≤ 0x5C00 ∧ sram2OffsetSeq 1 = some 0x1400 := by
  refine ⟨?_, by decide⟩
  have h' : (sram2OffsetSeq n).bind
      (rotateBankOffset SRAM2_SIZE 0x2000 0x400 0x1000 0x400) = some o := h
  cases hp : sram2OffsetSeq n with
  | none => rw [hp] at h'; simp at h'
  | some p =>
    rw [hp, Option.some_bind] at h'
    have := rotateBankOffset_le SRAM2_SIZE 0x2000 0x400 0x1000 0x400 p o
      (by decide) (by decide) h'
    have hsz : SRAM2_SIZE = 0x8000 := rfl
    omega

/-- Witness for C7 at `n = 0`: the first rotation yields 0x1400, which
is within the bound. -/
theorem sram2_rotation_bounded_witness :
    0x1400 ≤ 0x5C00 ∧ sram2OffsetSeq 1 = some 0x1400 :=
  sram2_rotation_bounded 0 0x1400 (by decide)

/-!
FaultDiagnosisStore and CrashRecoveryMonitor (`watchdog_handler.c`)
-/

/-- The four backup-domain registers used as the fault-diagnosis store
(`RTC_BKP_DR0` .. `RTC_BKP_DR3`): last test operation, test cycle
counter, last error code, watchdog reset counter. -/
structure FaultRecord where
  lastOperation : Nat
  cycleCount : Nat
  lastError : Nat
  resetCount : Nat
deriving DecidableEq

/-- The boot-time report emitted by `CheckForReset`: a watchdog-reset
forensic report, a clean pin-reset message, or the raw cause code. -/
inductive BootReport where
  | watchdogReset (totalResets lastCycle lastOperation lastError : Nat)
  | pinReset
  | otherReset (cause : Nat)
deriving DecidableEq

/-- The `IWDGRSTF` flag of `RCC->CSR` (independent watchdog reset),
bit 29 on the STM32G4. -/
def RCC_CSR_IWDGRSTF : Nat := 0x20000000

/-- The `PINRSTF` flag of `RCC->CSR` (pin reset), bit 26 on the
STM32G4. -/
def RCC_CSR_PINRSTF : Nat := 0x04000000

/-- Function `CheckForReset` from `watchdog_handler.c` (lines 89-139): on a
watchdog reset, increment the backup reset counter (a `uint32_t`
increment, hence modulo `2 ^ 32`) and report the persisted cycle,
operation and error unmodified; on a pin reset, zero the operation,
cycle and error registers but keep the reset counter; otherwise report
the raw cause without touching the store. -/
def checkForReset (resetCause : Nat) (r : FaultRecord) :
    FaultRecord × BootReport :=
  if resetCause &&& RCC_CSR_IWDGRSTF ≠ 0 then
    ({ r with resetCount := (r.resetCount + 1) % U32 },
     BootReport.watchdogReset ((r.resetCount + 1) % U32)
       r.cycleCount r.lastOperation r.lastError)
  else if resetCause &&& RCC_CSR_PINRSTF ≠ 0 then
    ({ lastOperation := 0, cycleCount := 0, lastError := 0,
       resetCount := r.resetCount },
     BootReport.pinReset)
  else
    (r, BootReport.otherReset resetCause)

/-- Function `SaveTestState` from `watchdog_handler.c` (lines 146-161): writes
the operation code, the current cycle counter and the error code into
backup registers DR0-DR2; DR3 (the reset counter) is untouched. -/
def saveTestState (operationCode errorCode testCycleCounter : Nat)
    (r : FaultRecord) : FaultRecord :=
  { lastOperation := operationCode % U32
    cycleCount := testCycleCounter % U32
    lastError := errorCode % U32
    resetCount := r.resetCount }

/-- The operation-code packing loop of `UpdateTestOperation`
(`main.c` lines 562-565): fold the first four bytes of the operation
string, stopping at a NUL, into `(code << 8) | byte`. -/
def packOperationCode (operation : List Nat) : Nat :=
  ((operation.take 4).takeWhile (fun b => b ≠ 0)).foldl
    (fun acc b => ((acc * 256) % U32) ||| (b % 256)) 0

/-- Function `UpdateTestOperation` from `main.c` (lines 556-567): packs the
operation string into a numeric code and calls
`SaveTestState(operationCode, 0)` — the error-code register is
overwritten with 0 (`ERROR_NONE`) on every operation update. -/
def updateTestOperation (operation : List Nat) (testCycleCounter : Nat)
    (r : FaultRecord) : FaultRecord :=
  saveTestState (packOperationCode operation) 0 testCycleCounter r

/-- Claim C2: on a supervisory (watchdog) timeout reset, the boot-time
recovery increments the persistent reset counter by exactly 1 and
reports the persisted last cycle, operation tag and error code
unmodified. -/
theorem checkForReset_watchdog (cause : Nat) (r : FaultRecord)
    (hw : cause &&& RCC_CSR_IWDGRSTF ≠ 0)
    (hcount : r.resetCount + 1 < U32) :
    checkForReset cause r =
      ({ r with resetCount := r.resetCount + 1 },
       BootReport.watchdogReset (r.resetCount + 1)
         r.cycleCount r.lastOperation r.lastError) := by
  unfold checkForReset
  rw [if_pos hw, Nat.mod_eq_of_lt hcount]

/-- Witness for C2: the spec's scenario, a persisted record
`{op = 0x41, cycle = 37, err = 0x06}` with reset counter 2 and a CSR
with the watchdog flag set. -/
theorem checkForReset_watchdog_witness :
    checkForReset 0x20000000 ⟨0x41, 37, 0x06, 2⟩ =
      (⟨0x41, 37, 0x06, 3⟩,
       BootReport.watchdogReset 3 37 0x41 0x06) :=
  checkForReset_watchdog 0x20000000 ⟨0x41, 37, 0x06, 2⟩
    (by decide) (by decide)

/-- Claim C3, counterexample: the persisted error code is NOT only
cleared by clean-startup handling — `UpdateTestOperation`, which runs
before every test primitive, calls `SaveTestState(opCode, 0)` and
overwrites a previously non-zero error code with zero.  Concretely,
with `err = 0x06` persisted, updating the operation to "Flash
Address Test" (bytes `0x46 0x6C 0x61 0x73`) at cycle 38 zeroes it. -/
theorem updateTestOperation_clears_error_cex :
    (updateTestOperation [0x46, 0x6C, 0x61, 0x73] 38
        ⟨0x41, 37, 0x06, 2⟩).lastError = 0 ∧
    (0x06 : Nat) ≠ 0 := by
  refine ⟨by decide, by decide⟩

/-- Claim C3, amended: on a clean (pin) reset the persisted
operationTag, cycle and errorCode are zeroed with the reset counter
left unchanged; however, they are also cleared during normal operation:
every `UpdateTestOperation` call writes zero into the errorCode field
(and the current cycle and new tag into the other two), so a non-zero
errorCode survives only until the next operation update. -/
theorem clean_reset_zeroes_record (cause c : Nat) (ops : List Nat)
    (r r' : FaultRecord)
    (hnw : cause &&& RCC_CSR_IWDGRSTF = 0)
    (hpin : cause &&& RCC_CSR_PINRSTF ≠ 0) :
    checkForReset cause r =
      ({ lastOperation := 0, cycleCount := 0, lastError := 0,
         resetCount := r.resetCount }, BootReport.pinReset) ∧
    (updateTestOperation ops c r').lastError = 0 := by
  constructor
  · unfold checkForReset
    rw [if_neg (by simp [hnw]), if_pos hpin]
  · rfl

/-- Witness for the amended C3: pin-reset CSR value 0x04000000,
persisted record `{op = 0x41, cycle = 37, err = 0x06, resets = 2}`. -/
theorem clean_reset_zeroes_record_witness :
    checkForReset 0x04000000 ⟨0x41, 37, 0x06, 2⟩ =
      (⟨0, 0, 0, 2⟩, BootReport.pinReset) ∧
    (updateTestOperation [0x46, 0x6C, 0x61, 0x73] 38
        ⟨0x41, 37, 0x06, 2⟩).lastError = 0 :=
  clean_reset_zeroes_record 0x04000000 38 [0x46, 0x6C, 0x61, 0x73]
    ⟨0x41, 37, 0x06, 2⟩ ⟨0x41, 37, 0x06, 2⟩ (by decide) (by decide)

/-!
CoverageScheduler (`main.c`)
-/

/-- The test modes from `memory_test.h` (`NORMAL_TEST_CYCLE` = 0 ..
`CACHE_ONLY_CYCLE` = 4). -/
inductive TestMode where
  | normalTestCycle
  | stressTestCycle
  | sramOnlyCycle
  | flashOnlyCycle
  | cacheOnlyCycle
deriving DecidableEq

/-- Whether the advanced tests (March C, walking ones/zeros, modified
checkerboard) run in the cycle with counter value `cycleCounter`, per
mode, as dispatched by `MainTestCycle`: `TestAllMemoryRegions`
(normal and stress modes, `main.c` line 329) gates them on
`cycleCounter % advancedTestInterval == 0`; `TestSRAMOnly`
(`main.c` line 445) on `cycleCounter % (advancedTestInterval / 2) == 0`;
`TestFlashOnly` and `TestCacheOnly` never run them. -/
def advancedTestsThisCycle (mode : TestMode)
    (advancedTestInterval cycleCounter : Nat) : Bool :=
  match mode with
  | .normalTestCycle => cycleCounter % advancedTestInterval == 0
  | .stressTestCycle => cycleCounter % advancedTestInterval == 0
  | .sramOnlyCycle => cycleCounter % (advancedTestInterval / 2) == 0
  | .flashOnlyCycle => false
  | .cacheOnlyCycle => false

/-- Claim C4, counterexample: with `advancedTestInterval = 10`, the
SRAM-only mode runs the advanced tests on cycle 5 — not a multiple of
10 — because `TestSRAMOnly` halves the interval. -/
theorem advanced_interval_cex :
    advancedTestsThisCycle TestMode.sramOnlyCycle 10 5 = true ∧
    5 % 10 ≠ 0 := by
  refine ⟨by decide, by decide⟩

/-- Claim C4, amended: with `advancedTestInterval = 10`, the advanced
tests run exactly on the cycles whose counter is a multiple of 10 in
the normal and stress modes; in SRAM-only mode they run exactly on
multiples of 5 (the halved interval); in Flash-only and cache-only
modes they never run. -/
theorem advanced_interval_by_mode (c : Nat) :
    (advancedTestsThisCycle TestMode.normalTestCycle 10 c = true ↔ c % 10 = 0) ∧
    (advancedTestsThisCycle TestMode.stressTestCycle 10 c = true ↔ c % 10 = 0) ∧
    (advancedTestsThisCycle TestMode.sramOnlyCycle 10 c = true ↔ c % 5 = 0) ∧
    advancedTestsThisCycle TestMode.flashOnlyCycle 10 c = false ∧
    advancedTestsThisCycle TestMode.cacheOnlyCycle 10 c = false := by
  unfold advancedTestsThisCycle
  refine ⟨?_, ?_, ?_, rfl, rfl⟩ <;> simp

/-!
Enhanced butterfly test addressing (`address_tests.c`)
-/

/-- The window remap of `RunEnhancedButterflyTest` (`address_tests.c`
lines 105-115 and 134-140): a candidate pair address outside the
current test window `[startAddr, startAddr + size)` is replaced by
`startAddr + (addr % size)` (in `uint32_t` arithmetic); an address
already inside is kept. -/
def mapIntoWindow (startAddr size a : Nat) : Nat :=
  if a < startAddr ∨ (startAddr + size) % U32 ≤ a then
    (startAddr + a % size) % U32
  else a

/-- The address pairs computed and then accessed by
`RunEnhancedButterflyTest` (`address_tests.c` lines 78-144): the
`numPairs` strided pairs (clamped to 32), then up to five power-of-two
separated pairs, each component remapped into the test window.  All
`uint32_t` arithmetic is reduced modulo `2 ^ 32`. -/
def butterflyPairAddrs (startAddr size totalSize numButterflyPairs cycleCounter :
    Nat) : List (Nat × Nat) :=
  let baseAddr := sub32 startAddr (startAddr % totalSize)
  let numPairs := min numButterflyPairs 32
  let rotationOffset := ((cycleCounter * 19) % U32) % totalSize
  let mainPairs := (List.range numPairs).map fun i =>
    ((baseAddr + ((rotationOffset + i * (totalSize / numPairs)) % U32 % totalSize))
       % U32,
     (baseAddr + ((rotationOffset + (i * (totalSize / numPairs) + totalSize / 2))
       % U32 % totalSize)) % U32)
  let extraPairs := (List.range (min 5 (32 - numPairs))).map fun i =>
    let bitPosition :=
      if totalSize ≤ (2 ^ (i + 2)) % U32 then totalSize / 2
      else (2 ^ (i + 2)) % U32
    ((baseAddr + rotationOffset % totalSize) % U32,
     (baseAddr + ((rotationOffset + bitPosition) % U32 % totalSize)) % U32)
  (mainPairs ++ extraPairs).map fun p =>
    (mapIntoWindow startAddr size p.1, mapIntoWindow startAddr size p.2)

/-- Boolean check that every butterfly pair address lies in the test
window `[startAddr, startAddr + size)`. -/
def butterflyPairsInWindow (startAddr size totalSize numButterflyPairs
    cycleCounter : Nat) : Bool :=
  (butterflyPairAddrs startAddr size totalSize numButterflyPairs
      cycleCounter).all fun p =>
    decide (startAddr ≤ p.1 ∧ p.1 < startAddr + size ∧
            startAddr ≤ p.2 ∧ p.2 < startAddr + size)

/-- The remap lands every candidate address inside the window, given a
positive window size that does not wrap the 32-bit address space. -/
theorem mapIntoWindow_mem (startAddr size a : Nat)
    (hsz : 0 < size) (hnw : startAddr + size < U32) :
    startAddr ≤ mapIntoWindow startAddr size a ∧
    mapIntoWindow startAddr size a < startAddr + size := by
  unfold mapIntoWindow
  have hend : (startAddr + size) % U32 = startAddr + size :=
    Nat.mod_eq_of_lt hnw
  split
  · have hmod : a % size < size := Nat.mod_lt _ hsz
    have hin : startAddr + a % size < U32 := by omega
    rw [Nat.mod_eq_of_lt hin]
    omega
  · rename_i hcond
    rw [hend] at hcond
    push_neg at hcond
    omega

/-- Claim C10: every address the enhanced butterfly test reads or
writes lies within the current test window `[startAddr, startAddr +
size)`, for any cycle counter and configured pair count, provided the
window size is positive, the region size is positive (the C code
divides and takes remainders by it) and the window does not wrap the
32-bit address space. -/
theorem butterfly_addrs_in_window (startAddr size totalSize np c : Nat)
    (hsz : 0 < size) (hts : 0 < totalSize) (hnw : startAddr + size < U32) :
    butterflyPairsInWindow startAddr size totalSize np c = true := by
  unfold butterflyPairsInWindow butterflyPairAddrs
  rw [List.all_eq_true]
  intro p hp
  rw [List.mem_map] at hp
  obtain ⟨q, hq, hpq⟩ := hp
  have h1 := mapIntoWindow_mem startAddr size q.1 hsz hnw
  have h2 := mapIntoWindow_mem startAddr size q.2 hsz hnw
  rw [← hpq]
  exact decide_eq_true (by exact ⟨h1.1, h1.2, h2.1, h2.2⟩)

/-- Witness for C10: the SRAM2 default window (start `0x20018400`,
size 0x2000, bank size 0x8000, 16 configured pairs) at cycle 1. -/
theorem butterfly_addrs_in_window_witness :
    butterflyPairsInWindow 0x20018400 0x2000 0x8000 16 1 = true :=
  butterfly_addrs_in_window 0x20018400 0x2000 0x8000 16 1
    (by decide) (by decide) (by decide)

end Zestys
